import Mathlib

/-!
Shallow embedding of the sx126x-spi-buf crate (src/commands.rs, src/registers.rs).
Byte buffers are lists of naturals whose entries are u8 values; u16 and u32
arithmetic is modelled on Nat with explicit reduction modulo two to the width
where the Rust code casts or can wrap.
-/

/-- Write a single bit of an 8-bit raw value, as the bitfield-struct setter does:
clear the bit position, then or in the new bit. -/
def bitSet8 (bits : Nat) (i : Nat) (b : Bool) : Nat :=
  (bits &&& (255 ^^^ (1 <<< i))) ||| ((if b then 1 else 0) <<< i)

/-- Write a single bit of a 16-bit raw value. -/
def bitSet16 (bits : Nat) (i : Nat) (b : Bool) : Nat :=
  (bits &&& (65535 ^^^ (1 <<< i))) ||| ((if b then 1 else 0) <<< i)

/-- Read a single bit as a Bool, as the bitfield-struct getter does. -/
def bitGet (bits : Nat) (i : Nat) : Bool :=
  (bits >>> i) &&& 1 == 1

/-! ## SleepConfig bitfield (u8, order = Msb)
Declared fields: 5 reserved bits, warm_start (1 bit), 2 reserved bits.
Msb order puts the first declared field in the highest bits, so warm_start
occupies bit 2 and the reserved bits are positions 0,1,3,4,5,6,7. -/

structure SleepConfig where
  bits : Nat
deriving DecidableEq

def SleepConfig.new : SleepConfig := ⟨0⟩

def SleepConfig.with_warm_start (c : SleepConfig) (b : Bool) : SleepConfig :=
  ⟨bitSet8 c.bits 2 b⟩

def SleepConfig.warm_start (c : SleepConfig) : Bool := bitGet c.bits 2

def SleepConfig.into_bits (c : SleepConfig) : Nat := c.bits

def SleepConfig.from_bits (n : Nat) : SleepConfig := ⟨n % 256⟩

/-- Mask of the reserved bit positions of SleepConfig. -/
def SleepConfig.reservedMask : Nat := 0xFB

/-! ## Irq bitfield (u16, default Lsb order)
tx_done bit 0, rx_done 1, preamble_detected 2, sync_word_valid 3,
header_valid 4, header_err 5, crc_err 6, cad_done 7, cad_detected 8,
timeout 9, 4 reserved bits 10..13, lr_fhss_hop 14, reserved bit 15. -/

structure Irq where
  bits : Nat
deriving DecidableEq

def Irq.new : Irq := ⟨0⟩

def Irq.from_bits (n : Nat) : Irq := ⟨n % 65536⟩

def Irq.into_bits (c : Irq) : Nat := c.bits

def Irq.with_tx_done (c : Irq) (b : Bool) : Irq := ⟨bitSet16 c.bits 0 b⟩
def Irq.with_rx_done (c : Irq) (b : Bool) : Irq := ⟨bitSet16 c.bits 1 b⟩
def Irq.with_preamble_detected (c : Irq) (b : Bool) : Irq := ⟨bitSet16 c.bits 2 b⟩
def Irq.with_sync_word_valid (c : Irq) (b : Bool) : Irq := ⟨bitSet16 c.bits 3 b⟩
def Irq.with_header_valid (c : Irq) (b : Bool) : Irq := ⟨bitSet16 c.bits 4 b⟩
def Irq.with_header_err (c : Irq) (b : Bool) : Irq := ⟨bitSet16 c.bits 5 b⟩
def Irq.with_crc_err (c : Irq) (b : Bool) : Irq := ⟨bitSet16 c.bits 6 b⟩
def Irq.with_cad_done (c : Irq) (b : Bool) : Irq := ⟨bitSet16 c.bits 7 b⟩
def Irq.with_cad_detected (c : Irq) (b : Bool) : Irq := ⟨bitSet16 c.bits 8 b⟩
def Irq.with_timeout (c : Irq) (b : Bool) : Irq := ⟨bitSet16 c.bits 9 b⟩
def Irq.with_lr_fhss_hop (c : Irq) (b : Bool) : Irq := ⟨bitSet16 c.bits 14 b⟩

def Irq.tx_done (c : Irq) : Bool := bitGet c.bits 0
def Irq.rx_done (c : Irq) : Bool := bitGet c.bits 1
def Irq.preamble_detected (c : Irq) : Bool := bitGet c.bits 2
def Irq.sync_word_valid (c : Irq) : Bool := bitGet c.bits 3
def Irq.header_valid (c : Irq) : Bool := bitGet c.bits 4
def Irq.header_err (c : Irq) : Bool := bitGet c.bits 5
def Irq.crc_err (c : Irq) : Bool := bitGet c.bits 6
def Irq.cad_done (c : Irq) : Bool := bitGet c.bits 7
def Irq.cad_detected (c : Irq) : Bool := bitGet c.bits 8
def Irq.timeout (c : Irq) : Bool := bitGet c.bits 9
def Irq.lr_fhss_hop (c : Irq) : Bool := bitGet c.bits 14

/-- Mask of the reserved bit positions of Irq: bits 10..13 and 15. -/
def Irq.reservedMask : Nat := 0xBC00

/-! ## OpError bitfield (u16, default Lsb order)
rc64k_calib_err bit 0, rc13m_calib_err 1, pll_calib_err 2, adc_calib_err 3,
img_calib_err 4, xosc_start_err 5, pll_lock_err 6, reserved bit 7,
pa_ramp_err 8, 7 reserved bits 9..15. -/

structure OpError where
  bits : Nat
deriving DecidableEq

def OpError.new : OpError := ⟨0⟩

def OpError.from_bits (n : Nat) : OpError := ⟨n % 65536⟩

def OpError.into_bits (c : OpError) : Nat := c.bits

def OpError.with_rc64k_calib_err (c : OpError) (b : Bool) : OpError := ⟨bitSet16 c.bits 0 b⟩
def OpError.with_rc13m_calib_err (c : OpError) (b : Bool) : OpError := ⟨bitSet16 c.bits 1 b⟩
def OpError.with_pll_calib_err (c : OpError) (b : Bool) : OpError := ⟨bitSet16 c.bits 2 b⟩
def OpError.with_adc_calib_err (c : OpError) (b : Bool) : OpError := ⟨bitSet16 c.bits 3 b⟩
def OpError.with_img_calib_err (c : OpError) (b : Bool) : OpError := ⟨bitSet16 c.bits 4 b⟩
def OpError.with_xosc_start_err (c : OpError) (b : Bool) : OpError := ⟨bitSet16 c.bits 5 b⟩
def OpError.with_pll_lock_err (c : OpError) (b : Bool) : OpError := ⟨bitSet16 c.bits 6 b⟩
def OpError.with_pa_ramp_err (c : OpError) (b : Bool) : OpError := ⟨bitSet16 c.bits 8 b⟩

def OpError.rc64k_calib_err (c : OpError) : Bool := bitGet c.bits 0
def OpError.rc13m_calib_err (c : OpError) : Bool := bitGet c.bits 1
def OpError.pll_calib_err (c : OpError) : Bool := bitGet c.bits 2
def OpError.adc_calib_err (c : OpError) : Bool := bitGet c.bits 3
def OpError.img_calib_err (c : OpError) : Bool := bitGet c.bits 4
def OpError.xosc_start_err (c : OpError) : Bool := bitGet c.bits 5
def OpError.pll_lock_err (c : OpError) : Bool := bitGet c.bits 6
def OpError.pa_ramp_err (c : OpError) : Bool := bitGet c.bits 8

/-- Mask of the reserved bit positions of OpError: bit 7 and bits 9..15. -/
def OpError.reservedMask : Nat := 0xFE80

/-! ## Protocol enumerations (repr(u8) enums from src/commands.rs) -/

inductive StdbyConfig where
  | StdbyRc
  | StdbyXosc
deriving DecidableEq

def StdbyConfig.toBits : StdbyConfig → Nat
  | .StdbyRc => 0
  | .StdbyXosc => 1

inductive TcxoVoltage where
  | V1_6 | V1_7 | V1_8 | V2_2 | V2_4 | V2_7 | V3_0 | V3_3
deriving DecidableEq

def TcxoVoltage.toBits : TcxoVoltage → Nat
  | .V1_6 => 0x00
  | .V1_7 => 0x01
  | .V1_8 => 0x02
  | .V2_2 => 0x03
  | .V2_4 => 0x04
  | .V2_7 => 0x05
  | .V3_0 => 0x06
  | .V3_3 => 0x07

inductive PacketType where
  | Gfsk | Lora | Reserved | LrFhss
deriving DecidableEq

def PacketType.toBits : PacketType → Nat
  | .Gfsk => 0x00
  | .Lora => 0x01
  | .Reserved => 0x02
  | .LrFhss => 0x03

/-- PacketType::from transmutes value & 0x03; all four masked values have a
variant, so the mapping is total. -/
def PacketType.fromRaw (value : Nat) : PacketType :=
  match value &&& 0x03 with
  | 0 => .Gfsk
  | 1 => .Lora
  | 2 => .Reserved
  | _ => .LrFhss

inductive RampTime where
  | Ramp10U | Ramp20U | Ramp40U | Ramp80U
  | Ramp200U | Ramp800U | Ramp1700U | Ramp3400U
deriving DecidableEq

def RampTime.toBits : RampTime → Nat
  | .Ramp10U => 0x00
  | .Ramp20U => 0x01
  | .Ramp40U => 0x02
  | .Ramp80U => 0x03
  | .Ramp200U => 0x04
  | .Ramp800U => 0x05
  | .Ramp1700U => 0x06
  | .Ramp3400U => 0x07

/-- RampTime::from transmutes value & 0x07; all eight masked values have a
variant, so the mapping is total. -/
def RampTime.fromRaw (value : Nat) : RampTime :=
  match value &&& 0x07 with
  | 0 => .Ramp10U
  | 1 => .Ramp20U
  | 2 => .Ramp40U
  | 3 => .Ramp80U
  | 4 => .Ramp200U
  | 5 => .Ramp800U
  | 6 => .Ramp1700U
  | _ => .Ramp3400U

inductive Sf where
  | Reserved1 | Reserved2 | Reserved3 | Reserved4 | Reserved5
  | Sf5 | Sf6 | Sf7 | Sf8 | Sf9 | Sf10 | Sf11 | Sf12
  | Reserved6 | Reserved7 | Reserved8
deriving DecidableEq

def Sf.toBits : Sf → Nat
  | .Reserved1 => 0x00
  | .Reserved2 => 0x01
  | .Reserved3 => 0x02
  | .Reserved4 => 0x03
  | .Reserved5 => 0x04
  | .Sf5 => 0x05
  | .Sf6 => 0x06
  | .Sf7 => 0x07
  | .Sf8 => 0x08
  | .Sf9 => 0x09
  | .Sf10 => 0x0A
  | .Sf11 => 0x0B
  | .Sf12 => 0x0C
  | .Reserved6 => 0x0D
  | .Reserved7 => 0x0E
  | .Reserved8 => 0x0F

/-- Sf::from transmutes value & 0x0F; all sixteen masked values have a
variant, so the mapping is total. -/
def Sf.fromRaw (value : Nat) : Sf :=
  match value &&& 0x0F with
  | 0x00 => .Reserved1
  | 0x01 => .Reserved2
  | 0x02 => .Reserved3
  | 0x03 => .Reserved4
  | 0x04 => .Reserved5
  | 0x05 => .Sf5
  | 0x06 => .Sf6
  | 0x07 => .Sf7
  | 0x08 => .Sf8
  | 0x09 => .Sf9
  | 0x0A => .Sf10
  | 0x0B => .Sf11
  | 0x0C => .Sf12
  | 0x0D => .Reserved6
  | 0x0E => .Reserved7
  | _ => .Reserved8

inductive Bw where
  | Bw7_8 | Bw10_42 | Bw15_63 | Bw20_83 | Bw31_25 | Bw41_67 | Bw62_50
  | Bw125 | Bw250 | Bw500
  | Reserved1 | Reserved2 | Reserved3 | Reserved4 | Reserved5
deriving DecidableEq

def Bw.toBits : Bw → Nat
  | .Bw7_8 => 0x00
  | .Bw10_42 => 0x08
  | .Bw15_63 => 0x01
  | .Bw20_83 => 0x09
  | .Bw31_25 => 0x02
  | .Bw41_67 => 0x0A
  | .Bw62_50 => 0x03
  | .Bw125 => 0x04
  | .Bw250 => 0x05
  | .Bw500 => 0x06
  | .Reserved1 => 0x0B
  | .Reserved2 => 0x0C
  | .Reserved3 => 0x0D
  | .Reserved4 => 0x0E
  | .Reserved5 => 0x0F

/-- Bw::from transmutes value & 0x0F. The Bw enum declares discriminants
0x00..0x06, 0x08..0x0A and 0x0B..0x0F but has NO variant with discriminant
0x07, so transmuting a masked value of 7 is undefined behavior; that case is
embedded as none. Every other masked value maps to its variant. -/
def Bw.fromRaw (value : Nat) : Option Bw :=
  match value &&& 0x0F with
  | 0x00 => some .Bw7_8
  | 0x01 => some .Bw15_63
  | 0x02 => some .Bw31_25
  | 0x03 => some .Bw62_50
  | 0x04 => some .Bw125
  | 0x05 => some .Bw250
  | 0x06 => some .Bw500
  | 0x07 => none
  | 0x08 => some .Bw10_42
  | 0x09 => some .Bw20_83
  | 0x0A => some .Bw41_67
  | 0x0B => some .Reserved1
  | 0x0C => some .Reserved2
  | 0x0D => some .Reserved3
  | 0x0E => some .Reserved4
  | _ => some .Reserved5

inductive Cr where
  | Reserved | Cr4_5 | Cr4_6 | Cr4_7 | Cr4_8 | Cr4_5Li | Cr4_6Li | Cr4_8Li
deriving DecidableEq

def Cr.toBits : Cr → Nat
  | .Reserved => 0x00
  | .Cr4_5 => 0x01
  | .Cr4_6 => 0x02
  | .Cr4_7 => 0x03
  | .Cr4_8 => 0x04
  | .Cr4_5Li => 0x05
  | .Cr4_6Li => 0x06
  | .Cr4_8Li => 0x07

/-- Cr::from transmutes value & 0x07; all eight masked values have a
variant, so the mapping is total. -/
def Cr.fromRaw (value : Nat) : Cr :=
  match value &&& 0x07 with
  | 0 => .Reserved
  | 1 => .Cr4_5
  | 2 => .Cr4_6
  | 3 => .Cr4_7
  | 4 => .Cr4_8
  | 5 => .Cr4_5Li
  | 6 => .Cr4_6Li
  | _ => .Cr4_8Li

inductive HeaderType where
  | VariableLength
  | FixedLength
deriving DecidableEq

def HeaderType.toBits : HeaderType → Nat
  | .VariableLength => 0x00
  | .FixedLength => 0x01

/-- HeaderType::from transmutes value & 0x01; both masked values are covered. -/
def HeaderType.fromRaw (value : Nat) : HeaderType :=
  match value &&& 0x01 with
  | 0 => .VariableLength
  | _ => .FixedLength

inductive InvertIq where
  | Standard
  | Inverted
deriving DecidableEq

def InvertIq.toBits : InvertIq → Nat
  | .Standard => 0x00
  | .Inverted => 0x01

/-- InvertIq::from transmutes value & 0x01; both masked values are covered. -/
def InvertIq.fromRaw (value : Nat) : InvertIq :=
  match value &&& 0x01 with
  | 0 => .Standard
  | _ => .Inverted

inductive StatusChipMode where
  | Unused | Reserved1 | StbyRc | StbyXosc | Fs | Rx | Tx | Reserved2
deriving DecidableEq

/-- StatusChipMode::extract transmutes (value >> 4) & 0x07; all eight masked
values have a variant. -/
def StatusChipMode.extract (value : Nat) : StatusChipMode :=
  match (value >>> 4) &&& 0x07 with
  | 0 => .Unused
  | 1 => .Reserved1
  | 2 => .StbyRc
  | 3 => .StbyXosc
  | 4 => .Fs
  | 5 => .Rx
  | 6 => .Tx
  | _ => .Reserved2

inductive StatusCommandStatus where
  | Reserved1 | Reserved2 | DataIsAvailableToHost | CommandTimeout
  | CommandProcessingError | FailureToExecuteCommand | CommandTxDone | Reserved3
deriving DecidableEq

/-- StatusCommandStatus::extract transmutes (value >> 1) & 0x03: the source
masks with 0x03 (two bits), so only the first four variants are reachable. -/
def StatusCommandStatus.extract (value : Nat) : StatusCommandStatus :=
  match (value >>> 1) &&& 0x03 with
  | 0 => .Reserved1
  | 1 => .Reserved2
  | 2 => .DataIsAvailableToHost
  | _ => .CommandTimeout

/-! ## Registers (src/registers.rs)
The Register trait is embedded as a bundle of its three members; the two
register types are newtypes over u8 whose value is carried as a Nat. -/

structure Register (R : Type) where
  ADDRESS : Nat
  bits : R → Nat
  from_bits : Nat → R

def LoraSyncWordMsb : Register Nat :=
  ⟨0x0740, fun v => v % 256, fun b => b % 256⟩

def LoraSyncWordLsb : Register Nat :=
  ⟨0x0741, fun v => v % 256, fun b => b % 256⟩

/-! ## Commands (src/commands.rs)
Each command struct carries its tx_buf and rx_buf as byte lists; the
constructors reproduce the source buffer layouts byte for byte. Arguments
of Rust type u8 / u16 / u32 are carried as Nat and reduced modulo the
width exactly where the source casts. -/

structure SetSleep where
  tx_buf : List Nat
  rx_buf : List Nat

def SetSleep.OPCODE : Nat := 0x84

def SetSleep.new (sleep_config : SleepConfig) : SetSleep :=
  ⟨[SetSleep.OPCODE, sleep_config.into_bits], List.replicate 2 0⟩

def SetSleep.transfer_size (_ : SetSleep) : Nat := 2

structure SetStandby where
  tx_buf : List Nat
  rx_buf : List Nat

def SetStandby.OPCODE : Nat := 0x80

def SetStandby.new (stdby_config : StdbyConfig) : SetStandby :=
  ⟨[SetStandby.OPCODE, stdby_config.toBits], List.replicate 2 0⟩

def SetStandby.transfer_size (_ : SetStandby) : Nat := 2

structure SetTx where
  tx_buf : List Nat
  rx_buf : List Nat

def SetTx.OPCODE : Nat := 0x83

def SetTx.new (timeout : Nat) : SetTx :=
  ⟨[SetTx.OPCODE, (timeout >>> 16) % 256, (timeout >>> 8) % 256, timeout % 256],
    List.replicate 4 0⟩

def SetTx.transfer_size (_ : SetTx) : Nat := 4

structure SetRx where
  tx_buf : List Nat
  rx_buf : List Nat

def SetRx.OPCODE : Nat := 0x82

def SetRx.new (timeout : Nat) : SetRx :=
  ⟨[SetRx.OPCODE, (timeout >>> 16) % 256, (timeout >>> 8) % 256, timeout % 256],
    List.replicate 4 0⟩

def SetRx.transfer_size (_ : SetRx) : Nat := 4

structure SetPaConfig where
  tx_buf : List Nat
  rx_buf : List Nat

def SetPaConfig.OPCODE : Nat := 0x95

def SetPaConfig.new (pa_duty_cycle : Nat) (hp_max : Nat) : SetPaConfig :=
  ⟨[SetPaConfig.OPCODE, pa_duty_cycle % 256, hp_max % 256, 0x00, 0x01],
    List.replicate 5 0⟩

def SetPaConfig.transfer_size (_ : SetPaConfig) : Nat := 5

structure WriteRegister where
  tx_buf : List Nat
  rx_buf : List Nat

def WriteRegister.OPCODE : Nat := 0x0D

def WriteRegister.new {R : Type} (reg : Register R) (register : R) : WriteRegister :=
  ⟨[WriteRegister.OPCODE, (reg.ADDRESS >>> 8) % 256, reg.ADDRESS % 256,
      reg.bits register],
    List.replicate 4 0⟩

def WriteRegister.transfer_size (_ : WriteRegister) : Nat := 4

structure ReadRegister where
  tx_buf : List Nat
  rx_buf : List Nat

def ReadRegister.OPCODE : Nat := 0x1D

def ReadRegister.new {R : Type} (reg : Register R) : ReadRegister :=
  ⟨[ReadRegister.OPCODE, (reg.ADDRESS >>> 8) % 256, reg.ADDRESS % 256, 0, 0],
    List.replicate 5 0⟩

def ReadRegister.register {R : Type} (reg : Register R) (c : ReadRegister) : R :=
  reg.from_bits (c.rx_buf.getD 4 0)

def ReadRegister.transfer_size (_ : ReadRegister) : Nat := 5

structure WriteBuffer where
  tx_buf : List Nat
  rx_buf : List Nat
  data_length : Nat

def WriteBuffer.OPCODE : Nat := 0x0E

/-- WriteBuffer::<N>::new(offset, data) with N = data.length + 2; the initial
data_length is N as u16 - 2, computed with u16 wrapping. -/
def WriteBuffer.new (offset : Nat) (data : List Nat) : WriteBuffer :=
  ⟨WriteBuffer.OPCODE :: offset % 256 :: data,
    List.replicate (data.length + 2) 0,
    ((data.length + 2) % 65536 + 65536 - 2) % 65536⟩

def WriteBuffer.set_data_length (c : WriteBuffer) (data_length : Nat) : WriteBuffer :=
  ⟨c.tx_buf, c.rx_buf, data_length % 65536⟩

/-- transfer_size returns self.data_length + 2 as u16, wrapping. -/
def WriteBuffer.transfer_size (c : WriteBuffer) : Nat :=
  (c.data_length + 2) % 65536

structure ReadBuffer where
  tx_buf : List Nat
  rx_buf : List Nat
  data_length : Nat

def ReadBuffer.OPCODE : Nat := 0x1E

/-- ReadBuffer::<N>::new(offset); tx_buf is all zero except opcode and offset;
the initial data_length is N as u16 - 3, computed with u16 wrapping. -/
def ReadBuffer.new (N : Nat) (offset : Nat) : ReadBuffer :=
  ⟨ReadBuffer.OPCODE :: offset % 256 :: List.replicate (N - 2) 0,
    List.replicate N 0,
    (N % 65536 + 65536 - 3) % 65536⟩

def ReadBuffer.set_data_length (c : ReadBuffer) (data_length : Nat) : ReadBuffer :=
  ⟨c.tx_buf, c.rx_buf, data_length % 65536⟩

/-- transfer_size returns self.data_length + 3 as u16, wrapping. -/
def ReadBuffer.transfer_size (c : ReadBuffer) : Nat :=
  (c.data_length + 3) % 65536

/-- data() returns rx_buf[3 .. 3 + data_length]. -/
def ReadBuffer.data (c : ReadBuffer) : List Nat :=
  (c.rx_buf.drop 3).take c.data_length

structure SetDioIrqParams where
  tx_buf : List Nat
  rx_buf : List Nat

def SetDioIrqParams.OPCODE : Nat := 0x08

def SetDioIrqParams.new (irq_mask dio1_mask dio2_mask dio3_mask : Irq) :
    SetDioIrqParams :=
  ⟨[SetDioIrqParams.OPCODE,
      (irq_mask.into_bits >>> 8) % 256, irq_mask.into_bits % 256,
      (dio1_mask.into_bits >>> 8) % 256, dio1_mask.into_bits % 256,
      (dio2_mask.into_bits >>> 8) % 256, dio2_mask.into_bits % 256,
      (dio3_mask.into_bits >>> 8) % 256, dio3_mask.into_bits % 256],
    List.replicate 9 0⟩

def SetDioIrqParams.transfer_size (_ : SetDioIrqParams) : Nat := 9

structure GetIrqStatus where
  tx_buf : List Nat
  rx_buf : List Nat

def GetIrqStatus.OPCODE : Nat := 0x12

def GetIrqStatus.new : GetIrqStatus :=
  ⟨[GetIrqStatus.OPCODE, 0, 0, 0], List.replicate 4 0⟩

def GetIrqStatus.irq_status (c : GetIrqStatus) : Irq :=
  Irq.from_bits ((c.rx_buf.getD 2 0 <<< 8) ||| c.rx_buf.getD 3 0)

def GetIrqStatus.transfer_size (_ : GetIrqStatus) : Nat := 4

structure ClearIrqStatus where
  tx_buf : List Nat
  rx_buf : List Nat

def ClearIrqStatus.OPCODE : Nat := 0x02

def ClearIrqStatus.new (clear_irq_param : Irq) : ClearIrqStatus :=
  ⟨[ClearIrqStatus.OPCODE, (clear_irq_param.into_bits >>> 8) % 256,
      clear_irq_param.into_bits % 256],
    List.replicate 3 0⟩

def ClearIrqStatus.transfer_size (_ : ClearIrqStatus) : Nat := 3

structure SetDio2AsRfSwitchCtrl where
  tx_buf : List Nat
  rx_buf : List Nat

def SetDio2AsRfSwitchCtrl.OPCODE : Nat := 0x9D

def SetDio2AsRfSwitchCtrl.new (enable : Bool) : SetDio2AsRfSwitchCtrl :=
  ⟨[SetDio2AsRfSwitchCtrl.OPCODE, if enable then 1 else 0], List.replicate 2 0⟩

def SetDio2AsRfSwitchCtrl.transfer_size (_ : SetDio2AsRfSwitchCtrl) : Nat := 2

structure SetDio3AsTcxoCtrl where
  tx_buf : List Nat
  rx_buf : List Nat

def SetDio3AsTcxoCtrl.OPCODE : Nat := 0x97

def SetDio3AsTcxoCtrl.new (tcxo_voltage : TcxoVoltage) (delay : Nat) :
    SetDio3AsTcxoCtrl :=
  ⟨[SetDio3AsTcxoCtrl.OPCODE, tcxo_voltage.toBits, (delay >>> 16) % 256,
      (delay >>> 8) &&& 0xFF, delay &&& 0xFF],
    List.replicate 5 0⟩

def SetDio3AsTcxoCtrl.transfer_size (_ : SetDio3AsTcxoCtrl) : Nat := 5

structure SetRfFrequency where
  tx_buf : List Nat
  rx_buf : List Nat

def SetRfFrequency.OPCODE : Nat := 0x86

def SetRfFrequency.new (rf_freq : Nat) : SetRfFrequency :=
  ⟨[SetRfFrequency.OPCODE, (rf_freq >>> 24) % 256, (rf_freq >>> 16) % 256,
      (rf_freq >>> 8) % 256, rf_freq % 256],
    List.replicate 5 0⟩

def SetRfFrequency.transfer_size (_ : SetRfFrequency) : Nat := 5

structure SetPacketType where
  tx_buf : List Nat
  rx_buf : List Nat

def SetPacketType.OPCODE : Nat := 0x8A

def SetPacketType.new (packet_type : PacketType) : SetPacketType :=
  ⟨[SetPacketType.OPCODE, packet_type.toBits], List.replicate 2 0⟩

def SetPacketType.transfer_size (_ : SetPacketType) : Nat := 2

structure GetPacketType where
  tx_buf : List Nat
  rx_buf : List Nat

def GetPacketType.OPCODE : Nat := 0x11

def GetPacketType.new : GetPacketType :=
  ⟨[GetPacketType.OPCODE, 0, 0], List.replicate 3 0⟩

def GetPacketType.packet_type (c : GetPacketType) : PacketType :=
  PacketType.fromRaw (c.rx_buf.getD 2 0)

def GetPacketType.transfer_size (_ : GetPacketType) : Nat := 3

structure SetTxParams where
  tx_buf : List Nat
  rx_buf : List Nat

def SetTxParams.OPCODE : Nat := 0x8E

def SetTxParams.new (power : Nat) (ramp_time : RampTime) : SetTxParams :=
  ⟨[SetTxParams.OPCODE, power % 256, ramp_time.toBits], List.replicate 3 0⟩

def SetTxParams.transfer_size (_ : SetTxParams) : Nat := 3

structure SetModulationParamsLora where
  tx_buf : List Nat
  rx_buf : List Nat

def SetModulationParamsLora.OPCODE : Nat := 0x8B

def SetModulationParamsLora.new (sf : Sf) (bw : Bw) (cr : Cr)
    (low_data_rate_optimize : Bool) : SetModulationParamsLora :=
  ⟨[SetModulationParamsLora.OPCODE, sf.toBits, bw.toBits, cr.toBits,
      if low_data_rate_optimize then 1 else 0],
    List.replicate 5 0⟩

def SetModulationParamsLora.transfer_size (_ : SetModulationParamsLora) : Nat := 5

structure SetPacketParams where
  tx_buf : List Nat
  rx_buf : List Nat

def SetPacketParams.OPCODE : Nat := 0x8C

def SetPacketParams.new (preamble_length : Nat) (header_type : HeaderType)
    (payload_length : Nat) (crc_type : Bool) (invert_iq : InvertIq) :
    SetPacketParams :=
  ⟨[SetPacketParams.OPCODE, (preamble_length >>> 8) &&& 0xFF,
      preamble_length &&& 0xFF, header_type.toBits, payload_length % 256,
      if crc_type then 1 else 0, invert_iq.toBits],
    List.replicate 7 0⟩

def SetPacketParams.transfer_size (_ : SetPacketParams) : Nat := 7

structure SetBufferBaseAddress where
  tx_buf : List Nat
  rx_buf : List Nat

def SetBufferBaseAddress.OPCODE : Nat := 0x8F

def SetBufferBaseAddress.new (tx_base_address rx_base_address : Nat) :
    SetBufferBaseAddress :=
  ⟨[SetBufferBaseAddress.OPCODE, tx_base_address % 256, rx_base_address % 256],
    List.replicate 3 0⟩

def SetBufferBaseAddress.transfer_size (_ : SetBufferBaseAddress) : Nat := 3

structure SetLoraSymbNumTimeout where
  tx_buf : List Nat
  rx_buf : List Nat

def SetLoraSymbNumTimeout.OPCODE : Nat := 0xA0

def SetLoraSymbNumTimeout.new (symb_num : Nat) : SetLoraSymbNumTimeout :=
  ⟨[SetLoraSymbNumTimeout.OPCODE, symb_num % 256], List.replicate 2 0⟩

def SetLoraSymbNumTimeout.transfer_size (_ : SetLoraSymbNumTimeout) : Nat := 2

structure GetStatus where
  tx_buf : List Nat
  rx_buf : List Nat

def GetStatus.OPCODE : Nat := 0xC0

def GetStatus.new : GetStatus :=
  ⟨[GetStatus.OPCODE, 0], List.replicate 2 0⟩

def GetStatus.chip_mode (c : GetStatus) : StatusChipMode :=
  StatusChipMode.extract (c.rx_buf.getD 1 0)

def GetStatus.command_status (c : GetStatus) : StatusCommandStatus :=
  StatusCommandStatus.extract (c.rx_buf.getD 1 0)

def GetStatus.transfer_size (_ : GetStatus) : Nat := 2

structure GetRxBufferStatus where
  tx_buf : List Nat
  rx_buf : List Nat

def GetRxBufferStatus.OPCODE : Nat := 0x13

def GetRxBufferStatus.new : GetRxBufferStatus :=
  ⟨[GetRxBufferStatus.OPCODE, 0, 0, 0], List.replicate 4 0⟩

def GetRxBufferStatus.payload_length_rx (c : GetRxBufferStatus) : Nat :=
  c.rx_buf.getD 2 0

def GetRxBufferStatus.rx_start_buffer_pointer (c : GetRxBufferStatus) : Nat :=
  c.rx_buf.getD 3 0

def GetRxBufferStatus.transfer_size (_ : GetRxBufferStatus) : Nat := 4

structure GetPacketStatusLora where
  tx_buf : List Nat
  rx_buf : List Nat

def GetPacketStatusLora.OPCODE : Nat := 0x14

def GetPacketStatusLora.new : GetPacketStatusLora :=
  ⟨[GetPacketStatusLora.OPCODE, 0, 0, 0, 0], List.replicate 5 0⟩

/-- rssi_pkt: -((rx_buf[2] / 2) as i8); the u8 division result is at most 127
so the i8 cast is the identity. -/
def GetPacketStatusLora.rssi_pkt (c : GetPacketStatusLora) : Int :=
  -(((c.rx_buf.getD 2 0) / 2 : Nat) : Int)

/-- The value of a byte reinterpreted as a signed 8-bit integer. -/
def i8OfByte (b : Nat) : Int :=
  if b % 256 < 128 then (b % 256 : Nat) else (b % 256 : Nat) - 256

/-- snr_pkt: (rx_buf[3] as i8) / 4, signed division truncating toward zero. -/
def GetPacketStatusLora.snr_pkt (c : GetPacketStatusLora) : Int :=
  Int.tdiv (i8OfByte (c.rx_buf.getD 3 0)) 4

/-- signal_rssi_pkt: -((rx_buf[4] / 2) as i8). -/
def GetPacketStatusLora.signal_rssi_pkt (c : GetPacketStatusLora) : Int :=
  -(((c.rx_buf.getD 4 0) / 2 : Nat) : Int)

def GetPacketStatusLora.transfer_size (_ : GetPacketStatusLora) : Nat := 5

structure GetStatsLora where
  tx_buf : List Nat
  rx_buf : List Nat

def GetStatsLora.OPCODE : Nat := 0x10

def GetStatsLora.new : GetStatsLora :=
  ⟨[GetStatsLora.OPCODE, 0, 0, 0, 0, 0, 0, 0], List.replicate 8 0⟩

def GetStatsLora.nb_pkt_received (c : GetStatsLora) : Nat :=
  (c.rx_buf.getD 2 0 <<< 8) ||| c.rx_buf.getD 3 0

def GetStatsLora.nb_pkt_crc_error (c : GetStatsLora) : Nat :=
  (c.rx_buf.getD 4 0 <<< 8) ||| c.rx_buf.getD 5 0

def GetStatsLora.nb_pkt_header_err (c : GetStatsLora) : Nat :=
  (c.rx_buf.getD 6 0 <<< 8) ||| c.rx_buf.getD 7 0

def GetStatsLora.transfer_size (_ : GetStatsLora) : Nat := 8

structure ResetStats where
  tx_buf : List Nat
  rx_buf : List Nat

def ResetStats.OPCODE : Nat := 0x00

def ResetStats.new : ResetStats :=
  ⟨[ResetStats.OPCODE, 0, 0, 0, 0, 0, 0], List.replicate 7 0⟩

def ResetStats.transfer_size (_ : ResetStats) : Nat := 7

structure GetDeviceErrors where
  tx_buf : List Nat
  rx_buf : List Nat

def GetDeviceErrors.OPCODE : Nat := 0x17

def GetDeviceErrors.new : GetDeviceErrors :=
  ⟨[GetDeviceErrors.OPCODE, 0, 0, 0], List.replicate 4 0⟩

def GetDeviceErrors.op_error (c : GetDeviceErrors) : OpError :=
  OpError.from_bits ((c.rx_buf.getD 2 0 <<< 8) ||| c.rx_buf.getD 3 0)

def GetDeviceErrors.transfer_size (_ : GetDeviceErrors) : Nat := 4

structure ClearDeviceErrors where
  tx_buf : List Nat
  rx_buf : List Nat

def ClearDeviceErrors.OPCODE : Nat := 0x07

def ClearDeviceErrors.new : ClearDeviceErrors :=
  ⟨[ClearDeviceErrors.OPCODE, 0, 0], List.replicate 3 0⟩

def ClearDeviceErrors.transfer_size (_ : ClearDeviceErrors) : Nat := 3

/-- Encode an Irq from its eleven named sub-field values by applying every
builder-style with-field setter to the zero value, in declaration order. -/
def Irq.encode (b0 b1 b2 b3 b4 b5 b6 b7 b8 b9 b10 : Bool) : Irq :=
  (((((((((((Irq.new.with_tx_done b0).with_rx_done b1).with_preamble_detected
    b2).with_sync_word_valid b3).with_header_valid b4).with_header_err
    b5).with_crc_err b6).with_cad_done b7).with_cad_detected b8).with_timeout
    b9).with_lr_fhss_hop b10)

/-- Encode an OpError from its eight named sub-field values by applying every
builder-style with-field setter to the zero value, in declaration order. -/
def OpError.encode (b0 b1 b2 b3 b4 b5 b6 b7 : Bool) : OpError :=
  ((((((((OpError.new.with_rc64k_calib_err b0).with_rc13m_calib_err
    b1).with_pll_calib_err b2).with_adc_calib_err b3).with_img_calib_err
    b4).with_xosc_start_err b5).with_pll_lock_err b6).with_pa_ramp_err b7)


/-! ## Sanity examples (doc-test vectors from the source) -/

example : (SetSleep.new (SleepConfig.new.with_warm_start true)).tx_buf = [0x84, 0x04] := by decide
example : (ClearIrqStatus.new ((Irq.new.with_header_valid true).with_timeout true)).tx_buf
    = [0x02, 2, 16] := by decide
example : (SetTx.new 6862921).tx_buf = [0x83, 104, 184, 73] := by decide
example : (SetRfFrequency.new 455081984).tx_buf = [0x86, 0x1B, 0x20, 0, 0] := by decide
example : (SetDio3AsTcxoCtrl.new .V3_3 3500).tx_buf = [0x97, 7, 0, 13, 172] := by decide
example : (WriteBuffer.new 0x10 [104, 101, 108, 108, 111]).tx_buf
    = [0x0E, 0x10, 104, 101, 108, 108, 111] := by decide
example : (WriteBuffer.new 0x10 [104, 101, 108, 108, 111]).transfer_size = 7 := by decide
example : (SetDioIrqParams.new (Irq.new.with_tx_done true) (Irq.new.with_rx_done true)
    (Irq.new.with_timeout true) Irq.new).tx_buf = [0x08, 0, 1, 0, 2, 2, 0, 0, 0] := by decide
example : StatusChipMode.extract 0x64 = .Tx := by decide
example : StatusCommandStatus.extract 0x64 = .DataIsAvailableToHost := by decide

/-- C1: for every command kind and every argument value, the first outbound
byte equals the fixed opcode of that kind and the outbound and inbound
buffers have the same length. -/
theorem c1_first_byte_is_opcode_and_buffers_equal_length :
    (∀ cfg : SleepConfig, (SetSleep.new cfg).tx_buf.headD 0 = SetSleep.OPCODE ∧
      (SetSleep.new cfg).tx_buf.length = (SetSleep.new cfg).rx_buf.length) ∧
    (∀ cfg : StdbyConfig, (SetStandby.new cfg).tx_buf.headD 0 = SetStandby.OPCODE ∧
      (SetStandby.new cfg).tx_buf.length = (SetStandby.new cfg).rx_buf.length) ∧
    (∀ t : Nat, (SetTx.new t).tx_buf.headD 0 = SetTx.OPCODE ∧
      (SetTx.new t).tx_buf.length = (SetTx.new t).rx_buf.length) ∧
    (∀ t : Nat, (SetRx.new t).tx_buf.headD 0 = SetRx.OPCODE ∧
      (SetRx.new t).tx_buf.length = (SetRx.new t).rx_buf.length) ∧
    (∀ d h : Nat, (SetPaConfig.new d h).tx_buf.headD 0 = SetPaConfig.OPCODE ∧
      (SetPaConfig.new d h).tx_buf.length = (SetPaConfig.new d h).rx_buf.length) ∧
    (∀ (R : Type) (reg : Register R) (r : R),
      (WriteRegister.new reg r).tx_buf.headD 0 = WriteRegister.OPCODE ∧
      (WriteRegister.new reg r).tx_buf.length = (WriteRegister.new reg r).rx_buf.length) ∧
    (∀ (R : Type) (reg : Register R),
      (ReadRegister.new reg).tx_buf.headD 0 = ReadRegister.OPCODE ∧
      (ReadRegister.new reg).tx_buf.length = (ReadRegister.new reg).rx_buf.length) ∧
    (∀ (offset : Nat) (data : List Nat),
      (WriteBuffer.new offset data).tx_buf.headD 0 = WriteBuffer.OPCODE ∧
      (WriteBuffer.new offset data).tx_buf.length = (WriteBuffer.new offset data).rx_buf.length) ∧
    (∀ n offset : Nat,
      (ReadBuffer.new (n + 2) offset).tx_buf.headD 0 = ReadBuffer.OPCODE ∧
      (ReadBuffer.new (n + 2) offset).tx_buf.length = (ReadBuffer.new (n + 2) offset).rx_buf.length) ∧
    (∀ a b c d : Irq, (SetDioIrqParams.new a b c d).tx_buf.headD 0 = SetDioIrqParams.OPCODE ∧
      (SetDioIrqParams.new a b c d).tx_buf.length = (SetDioIrqParams.new a b c d).rx_buf.length) ∧
    (GetIrqStatus.new.tx_buf.headD 0 = GetIrqStatus.OPCODE ∧
      GetIrqStatus.new.tx_buf.length = GetIrqStatus.new.rx_buf.length) ∧
    (∀ p : Irq, (ClearIrqStatus.new p).tx_buf.headD 0 = ClearIrqStatus.OPCODE ∧
      (ClearIrqStatus.new p).tx_buf.length = (ClearIrqStatus.new p).rx_buf.length) ∧
    (∀ b : Bool, (SetDio2AsRfSwitchCtrl.new b).tx_buf.headD 0 = SetDio2AsRfSwitchCtrl.OPCODE ∧
      (SetDio2AsRfSwitchCtrl.new b).tx_buf.length = (SetDio2AsRfSwitchCtrl.new b).rx_buf.length) ∧
    (∀ (v : TcxoVoltage) (d : Nat),
      (SetDio3AsTcxoCtrl.new v d).tx_buf.headD 0 = SetDio3AsTcxoCtrl.OPCODE ∧
      (SetDio3AsTcxoCtrl.new v d).tx_buf.length = (SetDio3AsTcxoCtrl.new v d).rx_buf.length) ∧
    (∀ f : Nat, (SetRfFrequency.new f).tx_buf.headD 0 = SetRfFrequency.OPCODE ∧
      (SetRfFrequency.new f).tx_buf.length = (SetRfFrequency.new f).rx_buf.length) ∧
    (∀ p : PacketType, (SetPacketType.new p).tx_buf.headD 0 = SetPacketType.OPCODE ∧
      (SetPacketType.new p).tx_buf.length = (SetPacketType.new p).rx_buf.length) ∧
    (GetPacketType.new.tx_buf.headD 0 = GetPacketType.OPCODE ∧
      GetPacketType.new.tx_buf.length = GetPacketType.new.rx_buf.length) ∧
    (∀ (p : Nat) (r : RampTime), (SetTxParams.new p r).tx_buf.headD 0 = SetTxParams.OPCODE ∧
      (SetTxParams.new p r).tx_buf.length = (SetTxParams.new p r).rx_buf.length) ∧
    (∀ (sf : Sf) (bw : Bw) (cr : Cr) (o : Bool),
      (SetModulationParamsLora.new sf bw cr o).tx_buf.headD 0 = SetModulationParamsLora.OPCODE ∧
      (SetModulationParamsLora.new sf bw cr o).tx_buf.length
        = (SetModulationParamsLora.new sf bw cr o).rx_buf.length) ∧
    (∀ (pl : Nat) (ht : HeaderType) (py : Nat) (ct : Bool) (iq : InvertIq),
      (SetPacketParams.new pl ht py ct iq).tx_buf.headD 0 = SetPacketParams.OPCODE ∧
      (SetPacketParams.new pl ht py ct iq).tx_buf.length
        = (SetPacketParams.new pl ht py ct iq).rx_buf.length) ∧
    (∀ a b : Nat, (SetBufferBaseAddress.new a b).tx_buf.headD 0 = SetBufferBaseAddress.OPCODE ∧
      (SetBufferBaseAddress.new a b).tx_buf.length = (SetBufferBaseAddress.new a b).rx_buf.length) ∧
    (∀ s : Nat, (SetLoraSymbNumTimeout.new s).tx_buf.headD 0 = SetLoraSymbNumTimeout.OPCODE ∧
      (SetLoraSymbNumTimeout.new s).tx_buf.length = (SetLoraSymbNumTimeout.new s).rx_buf.length) ∧
    (GetStatus.new.tx_buf.headD 0 = GetStatus.OPCODE ∧
      GetStatus.new.tx_buf.length = GetStatus.new.rx_buf.length) ∧
    (GetRxBufferStatus.new.tx_buf.headD 0 = GetRxBufferStatus.OPCODE ∧
      GetRxBufferStatus.new.tx_buf.length = GetRxBufferStatus.new.rx_buf.length) ∧
    (GetPacketStatusLora.new.tx_buf.headD 0 = GetPacketStatusLora.OPCODE ∧
      GetPacketStatusLora.new.tx_buf.length = GetPacketStatusLora.new.rx_buf.length) ∧
    (GetStatsLora.new.tx_buf.headD 0 = GetStatsLora.OPCODE ∧
      GetStatsLora.new.tx_buf.length = GetStatsLora.new.rx_buf.length) ∧
    (ResetStats.new.tx_buf.headD 0 = ResetStats.OPCODE ∧
      ResetStats.new.tx_buf.length = ResetStats.new.rx_buf.length) ∧
    (GetDeviceErrors.new.tx_buf.headD 0 = GetDeviceErrors.OPCODE ∧
      GetDeviceErrors.new.tx_buf.length = GetDeviceErrors.new.rx_buf.length) ∧
    (ClearDeviceErrors.new.tx_buf.headD 0 = ClearDeviceErrors.OPCODE ∧
      ClearDeviceErrors.new.tx_buf.length = ClearDeviceErrors.new.rx_buf.length) := by
  refine ⟨?_, ?_, ?_, ?_, ?_, ?_, ?_, ?_, ?_, ?_, ?_, ?_, ?_, ?_, ?_, ?_, ?_, ?_,
    ?_, ?_, ?_, ?_, ?_, ?_, ?_, ?_, ?_, ?_, ?_⟩ <;> intros <;>
  simp [SetSleep.new, SetStandby.new, SetTx.new, SetRx.new, SetPaConfig.new,
    WriteRegister.new, ReadRegister.new, WriteBuffer.new, ReadBuffer.new,
    SetDioIrqParams.new, GetIrqStatus.new, ClearIrqStatus.new,
    SetDio2AsRfSwitchCtrl.new, SetDio3AsTcxoCtrl.new, SetRfFrequency.new,
    SetPacketType.new, GetPacketType.new, SetTxParams.new,
    SetModulationParamsLora.new, SetPacketParams.new, SetBufferBaseAddress.new,
    SetLoraSymbNumTimeout.new, GetStatus.new, GetRxBufferStatus.new,
    GetPacketStatusLora.new, GetStatsLora.new, ResetStats.new,
    GetDeviceErrors.new, ClearDeviceErrors.new,
    SetSleep.OPCODE, SetStandby.OPCODE, SetTx.OPCODE, SetRx.OPCODE,
    SetPaConfig.OPCODE, WriteRegister.OPCODE, ReadRegister.OPCODE,
    WriteBuffer.OPCODE, ReadBuffer.OPCODE, SetDioIrqParams.OPCODE,
    GetIrqStatus.OPCODE, ClearIrqStatus.OPCODE, SetDio2AsRfSwitchCtrl.OPCODE,
    SetDio3AsTcxoCtrl.OPCODE, SetRfFrequency.OPCODE, SetPacketType.OPCODE,
    GetPacketType.OPCODE, SetTxParams.OPCODE, SetModulationParamsLora.OPCODE,
    SetPacketParams.OPCODE, SetBufferBaseAddress.OPCODE,
    SetLoraSymbNumTimeout.OPCODE, GetStatus.OPCODE, GetRxBufferStatus.OPCODE,
    GetPacketStatusLora.OPCODE, GetStatsLora.OPCODE, ResetStats.OPCODE,
    GetDeviceErrors.OPCODE, ClearDeviceErrors.OPCODE]

/-- C3: every command kind in the fixed opcode table has exactly the listed
opcode byte and the listed outbound buffer length (for WriteBuffer the length
is 2 plus the payload length, for ReadBuffer 3 plus the payload length). -/
theorem c3_fixed_opcode_table :
    (ResetStats.OPCODE = 0x00 ∧ ResetStats.new.tx_buf.length = 7) ∧
    (ClearIrqStatus.OPCODE = 0x02 ∧ ∀ p, (ClearIrqStatus.new p).tx_buf.length = 3) ∧
    (SetStandby.OPCODE = 0x80 ∧ ∀ c, (SetStandby.new c).tx_buf.length = 2) ∧
    (SetRx.OPCODE = 0x82 ∧ ∀ t, (SetRx.new t).tx_buf.length = 4) ∧
    (SetTx.OPCODE = 0x83 ∧ ∀ t, (SetTx.new t).tx_buf.length = 4) ∧
    (SetSleep.OPCODE = 0x84 ∧ ∀ c, (SetSleep.new c).tx_buf.length = 2) ∧
    (SetRfFrequency.OPCODE = 0x86 ∧ ∀ f, (SetRfFrequency.new f).tx_buf.length = 5) ∧
    (SetPacketType.OPCODE = 0x8A ∧ ∀ p, (SetPacketType.new p).tx_buf.length = 2) ∧
    (SetModulationParamsLora.OPCODE = 0x8B ∧
      ∀ sf bw cr o, (SetModulationParamsLora.new sf bw cr o).tx_buf.length = 5) ∧
    (SetPacketParams.OPCODE = 0x8C ∧
      ∀ pl ht py ct iq, (SetPacketParams.new pl ht py ct iq).tx_buf.length = 7) ∧
    (SetTxParams.OPCODE = 0x8E ∧ ∀ p r, (SetTxParams.new p r).tx_buf.length = 3) ∧
    (SetBufferBaseAddress.OPCODE = 0x8F ∧
      ∀ a b, (SetBufferBaseAddress.new a b).tx_buf.length = 3) ∧
    (WriteRegister.OPCODE = 0x0D ∧
      ∀ (R : Type) (reg : Register R) (r : R), (WriteRegister.new reg r).tx_buf.length = 4) ∧
    (WriteBuffer.OPCODE = 0x0E ∧
      ∀ (offset : Nat) (data : List Nat),
        (WriteBuffer.new offset data).tx_buf.length = 2 + data.length) ∧
    (GetStatus.OPCODE = 0xC0 ∧ GetStatus.new.tx_buf.length = 2) ∧
    (GetPacketType.OPCODE = 0x11 ∧ GetPacketType.new.tx_buf.length = 3) ∧
    (GetIrqStatus.OPCODE = 0x12 ∧ GetIrqStatus.new.tx_buf.length = 4) ∧
    (GetRxBufferStatus.OPCODE = 0x13 ∧ GetRxBufferStatus.new.tx_buf.length = 4) ∧
    (GetPacketStatusLora.OPCODE = 0x14 ∧ GetPacketStatusLora.new.tx_buf.length = 5) ∧
    (GetDeviceErrors.OPCODE = 0x17 ∧ GetDeviceErrors.new.tx_buf.length = 4) ∧
    (ReadRegister.OPCODE = 0x1D ∧
      ∀ (R : Type) (reg : Register R), (ReadRegister.new reg).tx_buf.length = 5) ∧
    (ReadBuffer.OPCODE = 0x1E ∧
      ∀ n offset : Nat, (ReadBuffer.new (n + 3) offset).tx_buf.length = 3 + n) ∧
    (ClearDeviceErrors.OPCODE = 0x07 ∧ ClearDeviceErrors.new.tx_buf.length = 3) ∧
    (SetDioIrqParams.OPCODE = 0x08 ∧
      ∀ a b c d, (SetDioIrqParams.new a b c d).tx_buf.length = 9) ∧
    (GetStatsLora.OPCODE = 0x10 ∧ GetStatsLora.new.tx_buf.length = 8) ∧
    (SetLoraSymbNumTimeout.OPCODE = 0xA0 ∧
      ∀ s, (SetLoraSymbNumTimeout.new s).tx_buf.length = 2) ∧
    (SetDio2AsRfSwitchCtrl.OPCODE = 0x9D ∧
      ∀ b, (SetDio2AsRfSwitchCtrl.new b).tx_buf.length = 2) ∧
    (SetDio3AsTcxoCtrl.OPCODE = 0x97 ∧
      ∀ v d, (SetDio3AsTcxoCtrl.new v d).tx_buf.length = 5) := by
  refine ⟨?_, ?_, ?_, ?_, ?_, ?_, ?_, ?_, ?_, ?_, ?_, ?_, ?_, ?_, ?_, ?_, ?_, ?_,
    ?_, ?_, ?_, ?_, ?_, ?_, ?_, ?_, ?_, ?_⟩ <;> refine ⟨rfl, ?_⟩ <;> intros <;>
  simp [ResetStats.new, ClearIrqStatus.new, SetStandby.new, SetRx.new, SetTx.new,
    SetSleep.new, SetRfFrequency.new, SetPacketType.new,
    SetModulationParamsLora.new, SetPacketParams.new, SetTxParams.new,
    SetBufferBaseAddress.new, WriteRegister.new, WriteBuffer.new, GetStatus.new,
    GetPacketType.new, GetIrqStatus.new, GetRxBufferStatus.new,
    GetPacketStatusLora.new, GetDeviceErrors.new, ReadRegister.new,
    ReadBuffer.new, ClearDeviceErrors.new, SetDioIrqParams.new,
    GetStatsLora.new, SetLoraSymbNumTimeout.new, SetDio2AsRfSwitchCtrl.new,
    SetDio3AsTcxoCtrl.new] <;> omega

/-- C4: for every combination of named sub-field values, decoding the integer
produced by the builder-style with-field setters of SleepConfig, Irq and
OpError reproduces every sub-field value exactly, and the reserved bits of
the encoded integer are zero. -/
theorem c4_bitfield_round_trip_and_reserved_zero :
    (∀ b : Bool, (SleepConfig.new.with_warm_start b).warm_start = b ∧
      (SleepConfig.new.with_warm_start b).into_bits &&& SleepConfig.reservedMask = 0) ∧
    (∀ b0 b1 b2 b3 b4 b5 b6 b7 b8 b9 b10 : Bool,
      (Irq.encode b0 b1 b2 b3 b4 b5 b6 b7 b8 b9 b10).tx_done = b0 ∧
      (Irq.encode b0 b1 b2 b3 b4 b5 b6 b7 b8 b9 b10).rx_done = b1 ∧
      (Irq.encode b0 b1 b2 b3 b4 b5 b6 b7 b8 b9 b10).preamble_detected = b2 ∧
      (Irq.encode b0 b1 b2 b3 b4 b5 b6 b7 b8 b9 b10).sync_word_valid = b3 ∧
      (Irq.encode b0 b1 b2 b3 b4 b5 b6 b7 b8 b9 b10).header_valid = b4 ∧
      (Irq.encode b0 b1 b2 b3 b4 b5 b6 b7 b8 b9 b10).header_err = b5 ∧
      (Irq.encode b0 b1 b2 b3 b4 b5 b6 b7 b8 b9 b10).crc_err = b6 ∧
      (Irq.encode b0 b1 b2 b3 b4 b5 b6 b7 b8 b9 b10).cad_done = b7 ∧
      (Irq.encode b0 b1 b2 b3 b4 b5 b6 b7 b8 b9 b10).cad_detected = b8 ∧
      (Irq.encode b0 b1 b2 b3 b4 b5 b6 b7 b8 b9 b10).timeout = b9 ∧
      (Irq.encode b0 b1 b2 b3 b4 b5 b6 b7 b8 b9 b10).lr_fhss_hop = b10 ∧
      (Irq.encode b0 b1 b2 b3 b4 b5 b6 b7 b8 b9 b10).into_bits &&& Irq.reservedMask = 0) ∧
    (∀ b0 b1 b2 b3 b4 b5 b6 b7 : Bool,
      (OpError.encode b0 b1 b2 b3 b4 b5 b6 b7).rc64k_calib_err = b0 ∧
      (OpError.encode b0 b1 b2 b3 b4 b5 b6 b7).rc13m_calib_err = b1 ∧
      (OpError.encode b0 b1 b2 b3 b4 b5 b6 b7).pll_calib_err = b2 ∧
      (OpError.encode b0 b1 b2 b3 b4 b5 b6 b7).adc_calib_err = b3 ∧
      (OpError.encode b0 b1 b2 b3 b4 b5 b6 b7).img_calib_err = b4 ∧
      (OpError.encode b0 b1 b2 b3 b4 b5 b6 b7).xosc_start_err = b5 ∧
      (OpError.encode b0 b1 b2 b3 b4 b5 b6 b7).pll_lock_err = b6 ∧
      (OpError.encode b0 b1 b2 b3 b4 b5 b6 b7).pa_ramp_err = b7 ∧
      (OpError.encode b0 b1 b2 b3 b4 b5 b6 b7).into_bits &&& OpError.reservedMask = 0) := by
  refine ⟨?_, ?_, ?_⟩ <;> decide

/-- C5: WriteRegister builds [opcode, address-high, address-low, encoded byte]
with the address big-endian, ReadRegister builds [opcode, address-high,
address-low, 0, 0] and decodes the register value from inbound index 4; in
particular writing 0x48 at address 0x0740 yields [0x0D, 0x07, 0x40, 0x48]. -/
theorem c5_register_command_layout :
    (∀ (R : Type) (reg : Register R) (r : R),
      (WriteRegister.new reg r).tx_buf
        = [0x0D, (reg.ADDRESS >>> 8) % 256, reg.ADDRESS % 256, reg.bits r]) ∧
    (∀ v : Fin 256, (WriteRegister.new LoraSyncWordMsb v.val).tx_buf
      = [0x0D, 0x07, 0x40, v.val]) ∧
    (∀ v : Fin 256, (WriteRegister.new LoraSyncWordLsb v.val).tx_buf
      = [0x0D, 0x07, 0x41, v.val]) ∧
    (WriteRegister.new LoraSyncWordMsb 0x48).tx_buf = [0x0D, 0x07, 0x40, 0x48] ∧
    (ReadRegister.new LoraSyncWordMsb).tx_buf = [0x1D, 0x07, 0x40, 0, 0] ∧
    (ReadRegister.new LoraSyncWordLsb).tx_buf = [0x1D, 0x07, 0x41, 0, 0] ∧
    (∀ (R : Type) (reg : Register R) (c : ReadRegister),
      ReadRegister.register reg c = reg.from_bits (c.rx_buf.getD 4 0)) ∧
    ReadRegister.register LoraSyncWordLsb
      ⟨(ReadRegister.new LoraSyncWordLsb).tx_buf, [0, 0, 0, 0, 0x86]⟩ = 0x86 := by
  refine ⟨fun R reg r => rfl, ?_, ?_, by decide, by decide, by decide,
    fun R reg c => rfl, by decide⟩ <;>
  · intro v
    simp [WriteRegister.new, WriteRegister.OPCODE, LoraSyncWordMsb,
      LoraSyncWordLsb, Nat.mod_eq_of_lt v.isLt]

set_option maxRecDepth 4000 in
/-- The signed byte value divided by four with truncation toward zero always
lies in the i8-representable band [-32, 31]. -/
theorem i8OfByte_tdiv_four_bounds :
    ∀ b : Fin 256, -32 ≤ Int.tdiv (i8OfByte b.val) 4 ∧
      Int.tdiv (i8OfByte b.val) 4 ≤ 31 := by decide

/-- C6: the GetPacketStatusLora decoders: rssi_pkt is minus half the raw byte
at index 2 (integer division) and is i8-representable, snr_pkt is the byte at
index 3 reinterpreted as signed and divided by 4 truncating toward zero,
signal_rssi_pkt is minus half the byte at index 4; on response bytes
[_, _, 184, 0b11111100, 162] the decoded values are -92, -1 and -81. -/
theorem c6_packet_status_decoders :
    (∀ b2 b3 b4 : Fin 256,
      (GetPacketStatusLora.rssi_pkt
          ⟨GetPacketStatusLora.new.tx_buf, [0, 0, b2.val, b3.val, b4.val]⟩
        = -((b2.val / 2 : Nat) : Int)) ∧
      -127 ≤ GetPacketStatusLora.rssi_pkt
          ⟨GetPacketStatusLora.new.tx_buf, [0, 0, b2.val, b3.val, b4.val]⟩ ∧
      GetPacketStatusLora.rssi_pkt
          ⟨GetPacketStatusLora.new.tx_buf, [0, 0, b2.val, b3.val, b4.val]⟩ ≤ 0 ∧
      (GetPacketStatusLora.snr_pkt
          ⟨GetPacketStatusLora.new.tx_buf, [0, 0, b2.val, b3.val, b4.val]⟩
        = Int.tdiv (i8OfByte b3.val) 4) ∧
      -32 ≤ GetPacketStatusLora.snr_pkt
          ⟨GetPacketStatusLora.new.tx_buf, [0, 0, b2.val, b3.val, b4.val]⟩ ∧
      GetPacketStatusLora.snr_pkt
          ⟨GetPacketStatusLora.new.tx_buf, [0, 0, b2.val, b3.val, b4.val]⟩ ≤ 31 ∧
      (GetPacketStatusLora.signal_rssi_pkt
          ⟨GetPacketStatusLora.new.tx_buf, [0, 0, b2.val, b3.val, b4.val]⟩
        = -((b4.val / 2 : Nat) : Int)) ∧
      -127 ≤ GetPacketStatusLora.signal_rssi_pkt
          ⟨GetPacketStatusLora.new.tx_buf, [0, 0, b2.val, b3.val, b4.val]⟩ ∧
      GetPacketStatusLora.signal_rssi_pkt
          ⟨GetPacketStatusLora.new.tx_buf, [0, 0, b2.val, b3.val, b4.val]⟩ ≤ 0) ∧
    (GetPacketStatusLora.rssi_pkt
        ⟨GetPacketStatusLora.new.tx_buf, [0, 0, 184, 252, 162]⟩ = -92 ∧
      GetPacketStatusLora.snr_pkt
        ⟨GetPacketStatusLora.new.tx_buf, [0, 0, 184, 252, 162]⟩ = -1 ∧
      GetPacketStatusLora.signal_rssi_pkt
        ⟨GetPacketStatusLora.new.tx_buf, [0, 0, 184, 252, 162]⟩ = -81) := by
  refine ⟨fun b2 b3 b4 => ?_, by decide⟩
  have h2 := b2.isLt
  have h4 := b4.isLt
  have hs := i8OfByte_tdiv_four_bounds b3
  refine ⟨rfl, ?_, ?_, rfl, hs.1, hs.2, rfl, ?_, ?_⟩ <;>
  · simp [GetPacketStatusLora.rssi_pkt, GetPacketStatusLora.signal_rssi_pkt]
    omega

set_option maxRecDepth 4000 in
/-- C8 (code evaluation): the source masks the command-status field with 0x03
(two bits) after the shift by 1, so status byte 0x0C, whose bits 3:1 hold
0b110, decodes to DataIsAvailableToHost, and the enumerants
CommandProcessingError, FailureToExecuteCommand and CommandTxDone are not the
decode of any status byte; the chip-mode field is masked to its full three
bits and every chip-mode enumerant is reachable. -/
theorem c8_command_status_mask_is_two_bits :
    StatusCommandStatus.extract 0x0C = StatusCommandStatus.DataIsAvailableToHost ∧
    (∀ b : Fin 256, StatusCommandStatus.extract b.val
      ≠ StatusCommandStatus.CommandTxDone) ∧
    (∀ b : Fin 256, StatusCommandStatus.extract b.val
      ≠ StatusCommandStatus.CommandProcessingError) ∧
    (∀ b : Fin 256, StatusCommandStatus.extract b.val
      ≠ StatusCommandStatus.FailureToExecuteCommand) ∧
    (StatusChipMode.extract 0x00 = StatusChipMode.Unused ∧
      StatusChipMode.extract 0x10 = StatusChipMode.Reserved1 ∧
      StatusChipMode.extract 0x20 = StatusChipMode.StbyRc ∧
      StatusChipMode.extract 0x30 = StatusChipMode.StbyXosc ∧
      StatusChipMode.extract 0x40 = StatusChipMode.Fs ∧
      StatusChipMode.extract 0x50 = StatusChipMode.Rx ∧
      StatusChipMode.extract 0x60 = StatusChipMode.Tx ∧
      StatusChipMode.extract 0x70 = StatusChipMode.Reserved2) := by
  decide

set_option maxRecDepth 4000 in
/-- C9 (code evaluation): the Bw enum has no variant with discriminant 0x07,
so Bw::from on any byte whose low nibble is 7 transmutes an undiscriminated
value (embedded as none); every other masked-decoding enum in the claim is
total over all 256 bytes, the decodes depend only on the masked bits, and the
two sync-word registers round-trip every byte value exactly. -/
theorem c9_enum_decode_totality_and_register_round_trip :
    Bw.fromRaw 0x07 = none ∧
    (∀ b : Fin 256, Bw.fromRaw b.val = none ↔ b.val &&& 0x0F = 7) ∧
    (∀ b : Fin 256, PacketType.fromRaw b.val = PacketType.fromRaw (b.val &&& 0x03)) ∧
    (∀ b : Fin 256, Sf.fromRaw b.val = Sf.fromRaw (b.val &&& 0x0F)) ∧
    (∀ b : Fin 256, Cr.fromRaw b.val = Cr.fromRaw (b.val &&& 0x07)) ∧
    (∀ b : Fin 256, HeaderType.fromRaw b.val = HeaderType.fromRaw (b.val &&& 0x01)) ∧
    (∀ b : Fin 256, InvertIq.fromRaw b.val = InvertIq.fromRaw (b.val &&& 0x01)) ∧
    (∀ b : Fin 256, RampTime.fromRaw b.val = RampTime.fromRaw (b.val &&& 0x07)) ∧
    (∀ v : Fin 256, LoraSyncWordMsb.from_bits (LoraSyncWordMsb.bits v.val) = v.val) ∧
    (∀ v : Fin 256, LoraSyncWordLsb.from_bits (LoraSyncWordLsb.bits v.val) = v.val) := by
  decide

/-- C10: SetPaConfig::new builds the 5-byte buffer [0x95, pa_duty_cycle,
hp_max, 0x00, 0x01] with transfer length 5 and an all-zero inbound buffer;
its opcode 0x95 is distinct from every opcode of the fixed table. -/
theorem c10_set_pa_config_layout :
    (∀ d h : Fin 256,
      (SetPaConfig.new d.val h.val).tx_buf = [0x95, d.val, h.val, 0x00, 0x01] ∧
      (SetPaConfig.new d.val h.val).transfer_size = 5 ∧
      (SetPaConfig.new d.val h.val).rx_buf = List.replicate 5 0) ∧
    SetPaConfig.OPCODE = 0x95 ∧
    SetPaConfig.OPCODE ∉ [ResetStats.OPCODE, ClearIrqStatus.OPCODE,
      SetStandby.OPCODE, SetRx.OPCODE, SetTx.OPCODE, SetSleep.OPCODE,
      SetRfFrequency.OPCODE, SetPacketType.OPCODE,
      SetModulationParamsLora.OPCODE, SetPacketParams.OPCODE,
      SetTxParams.OPCODE, SetBufferBaseAddress.OPCODE, WriteRegister.OPCODE,
      WriteBuffer.OPCODE, GetStatus.OPCODE, GetPacketType.OPCODE,
      GetIrqStatus.OPCODE, GetRxBufferStatus.OPCODE,
      GetPacketStatusLora.OPCODE, GetDeviceErrors.OPCODE, ReadRegister.OPCODE,
      ReadBuffer.OPCODE, ClearDeviceErrors.OPCODE, SetDioIrqParams.OPCODE,
      GetStatsLora.OPCODE, SetLoraSymbNumTimeout.OPCODE,
      SetDio2AsRfSwitchCtrl.OPCODE, SetDio3AsTcxoCtrl.OPCODE] := by
  refine ⟨fun d h => ?_, by decide, by decide⟩
  simp [SetPaConfig.new, SetPaConfig.OPCODE, SetPaConfig.transfer_size,
    Nat.mod_eq_of_lt d.isLt, Nat.mod_eq_of_lt h.isLt]

/-- C2 counterexample: set_data_length accepts any u16 unchecked, so after
set_data_length(100) a WriteBuffer of capacity 7 reports transfer length 102,
which exceeds the buffer capacity. -/
theorem c2_counterexample_transfer_exceeds_capacity :
    ((WriteBuffer.new 0x10 [104, 101, 108, 108, 111]).set_data_length
      100).transfer_size = 102 ∧
    ((WriteBuffer.new 0x10 [104, 101, 108, 108, 111]).set_data_length
      100).tx_buf.length = 7 ∧
    ¬ ((WriteBuffer.new 0x10 [104, 101, 108, 108, 111]).set_data_length
        100).transfer_size
      ≤ ((WriteBuffer.new 0x10 [104, 101, 108, 108, 111]).set_data_length
        100).tx_buf.length := by decide

/-- C2 amended: transfer_length is at most the buffer capacity N for freshly
constructed WriteBuffer and ReadBuffer values, and after set_data_length
calls whose argument keeps data_length + fixed_header_bytes at most N; an
unconstrained u16 argument can exceed it. -/
theorem c2_amended_transfer_length_within_capacity :
    (∀ (offset : Nat) (data : List Nat), data.length ≤ 65533 →
      (WriteBuffer.new offset data).transfer_size
        ≤ (WriteBuffer.new offset data).tx_buf.length) ∧
    (∀ (offset : Nat) (data : List Nat) (d : Nat), d ≤ data.length →
      ((WriteBuffer.new offset data).set_data_length d).transfer_size
        ≤ ((WriteBuffer.new offset data).set_data_length d).tx_buf.length) ∧
    (∀ N offset : Nat, 3 ≤ N → N ≤ 65535 →
      (ReadBuffer.new N offset).transfer_size
        ≤ (ReadBuffer.new N offset).tx_buf.length) ∧
    (∀ N offset d : Nat, 2 ≤ N → d + 3 ≤ N →
      ((ReadBuffer.new N offset).set_data_length d).transfer_size
        ≤ ((ReadBuffer.new N offset).set_data_length d).tx_buf.length) := by
  refine ⟨?_, ?_, ?_, ?_⟩ <;> intros <;>
  · simp_all [WriteBuffer.new, WriteBuffer.set_data_length,
      WriteBuffer.transfer_size, ReadBuffer.new, ReadBuffer.set_data_length,
      ReadBuffer.transfer_size]
    omega

/-- C2 witness: the amended invariant evaluated on the capacity-7 WriteBuffer
of the doc example and on a ReadBuffer of capacity 8 after shrinking. -/
theorem c2_amended_transfer_length_within_capacity_witness :
    (WriteBuffer.new 0x10 [104, 101, 108, 108, 111]).transfer_size
      ≤ (WriteBuffer.new 0x10 [104, 101, 108, 108, 111]).tx_buf.length ∧
    ((ReadBuffer.new 8 0x17).set_data_length 3).transfer_size
      ≤ ((ReadBuffer.new 8 0x17).set_data_length 3).tx_buf.length :=
  ⟨c2_amended_transfer_length_within_capacity.1 0x10 [104, 101, 108, 108, 111]
      (by decide),
    c2_amended_transfer_length_within_capacity.2.2.2 8 0x17 3 (by decide)
      (by decide)⟩

/-- C7 counterexample: transfer_size computes data_length + header in u16
arithmetic, so set_data_length(65535) on the capacity-7 WriteBuffer makes
transfer_size wrap to 1 instead of 65535 + 2. -/
theorem c7_counterexample_u16_wraparound :
    ((WriteBuffer.new 0x10 [104, 101, 108, 108, 111]).set_data_length
      65535).transfer_size = 1 ∧
    ((WriteBuffer.new 0x10 [104, 101, 108, 108, 111]).set_data_length
      65535).transfer_size ≠ 65535 + 2 := by decide

/-- C7 amended: whenever d + header fits in u16, set_data_length(d) changes
transfer_length to d plus the fixed header (2 for WriteBuffer, 3 for
ReadBuffer), and for every d it leaves every outbound and inbound byte and
the buffer capacity unchanged; the doc example over payload "hello" behaves
as listed. -/
theorem c7_amended_set_data_length_effect :
    (∀ (offset : Nat) (data : List Nat) (d : Nat), d + 2 ≤ 65535 →
      ((WriteBuffer.new offset data).set_data_length d).transfer_size = d + 2) ∧
    (∀ (offset : Nat) (data : List Nat) (d : Nat),
      ((WriteBuffer.new offset data).set_data_length d).tx_buf
          = (WriteBuffer.new offset data).tx_buf ∧
        ((WriteBuffer.new offset data).set_data_length d).rx_buf
          = (WriteBuffer.new offset data).rx_buf ∧
        ((WriteBuffer.new offset data).set_data_length d).tx_buf.length
          = 2 + data.length) ∧
    (∀ N offset d : Nat, d + 3 ≤ 65535 →
      ((ReadBuffer.new N offset).set_data_length d).transfer_size = d + 3) ∧
    (∀ N offset d : Nat,
      ((ReadBuffer.new N offset).set_data_length d).tx_buf
          = (ReadBuffer.new N offset).tx_buf ∧
        ((ReadBuffer.new N offset).set_data_length d).rx_buf
          = (ReadBuffer.new N offset).rx_buf) ∧
    ((WriteBuffer.new 0x10 [104, 101, 108, 108, 111]).tx_buf
        = [0x0E, 0x10, 104, 101, 108, 108, 111] ∧
      (WriteBuffer.new 0x10 [104, 101, 108, 108, 111]).transfer_size = 7 ∧
      ((WriteBuffer.new 0x10 [104, 101, 108, 108, 111]).set_data_length
        3).transfer_size = 5 ∧
      ((WriteBuffer.new 0x10 [104, 101, 108, 108, 111]).set_data_length
        3).tx_buf = [0x0E, 0x10, 104, 101, 108, 108, 111]) := by
  refine ⟨?_, ?_, ?_, ?_, by decide⟩ <;> intros <;>
  · simp_all [WriteBuffer.new, WriteBuffer.set_data_length,
      WriteBuffer.transfer_size, ReadBuffer.new, ReadBuffer.set_data_length,
      ReadBuffer.transfer_size]
    try omega

/-- C7 witness: the amended statement evaluated on the doc example, shrinking
the data length of the capacity-7 WriteBuffer to 3. -/
theorem c7_amended_set_data_length_effect_witness :
    ((WriteBuffer.new 0x10 [104, 101, 108, 108, 111]).set_data_length
      3).transfer_size = 3 + 2 ∧
    ((ReadBuffer.new 8 0x17).set_data_length 3).transfer_size = 3 + 3 :=
  ⟨c7_amended_set_data_length_effect.1 0x10 [104, 101, 108, 108, 111] 3
      (by decide),
    c7_amended_set_data_length_effect.2.2.1 8 0x17 3 (by decide)⟩
